import Mathlib

/-!
Verification of the RO-unit telemetry-to-diagnosis pipeline
(`Tenant/app`): the diagnostic engine (`diagnostico_engine.py`), the
rate-limited telemetry writer and alarm deduplication
(`telemetry_writer.py`, `crud.py`) and the MQTT tele decoder
(`mqtt_ingestor.py`), shallowly embedded over exact rational arithmetic.
Timestamps are rationals (seconds); Python floats are modelled as ℚ.
Human-readable `title` and `detail` strings of alarms/recommendations are
presentation-only and are not modelled; alarm identity is its `code` and
`severity`, which is what every claim speaks about.
-/

namespace Tenant

/-- Engine states, `diagnostico_engine.py` lines 12-17. -/
def S_IDLE : String := "IDLE"

def S_STOPPED : String := "STOPPED"

def S_PRECHECK_WAIT_PE : String := "PRECHECK_WAIT_PE"

def S_PRECHECK_SAMPLE_PINT_OFF : String := "PRECHECK_SAMPLE_PINT_OFF"

def S_STARTING_HIGH : String := "STARTING_HIGH"

def S_PRODUCTION : String := "PRODUCTION"

/-- Severities, lines 23-25. -/
def SEV_INFO : String := "info"

def SEV_WARN : String := "warn"

def SEV_ALARM : String := "alarm"

/-- `_sev_rank` (line 601): dict lookup with default 0. -/
def sev_rank (s : String) : Nat :=
  if s = SEV_INFO then 0 else if s = SEV_WARN then 1 else if s = SEV_ALARM then 2 else 0

/-- `_max_sev` (line 605): `b if _sev_rank(b) > _sev_rank(a) else a`. -/
def max_sev (a b : String) : String :=
  if sev_rank b > sev_rank a then b else a

/-- `max(a, b, key=_sev_rank)` (line 295): Python `max` keeps the first
argument on ties, so it is `a if rank a >= rank b else b`. -/
def max_sev_first (a b : String) : String :=
  if sev_rank a ≥ sev_rank b then a else b

/-- `AlarmEvent` (lines 31-36), identified by code and severity. -/
structure AlarmEvent where
  code : String
  severity : String
deriving DecidableEq, Repr

/-- `Recommendation` (lines 39-43), identified by code. -/
structure Recommendation where
  code : String
deriving DecidableEq, Repr

/-- `EngineResult` (lines 46-51); the `debug` dict is presentation-only. -/
structure EngineResult where
  severity : String := SEV_INFO
  alarms : List AlarmEvent := []
  recs : List Recommendation := []
deriving DecidableEq, Repr

/-- `FixedWindowSampler` (lines 57-97) state: window length, first accepted
timestamp, accepted `(ts, value)` samples. -/
structure Sampler where
  window_s : ℚ
  t0 : Option ℚ
  samples : List (ℚ × ℚ)
deriving DecidableEq, Repr

/-- `FixedWindowSampler(window_s)` freshly constructed (lines 61-67). -/
def Sampler.init (w : ℚ) : Sampler :=
  { window_s := w, t0 := none, samples := [] }

/-- `FixedWindowSampler.add` (lines 69-78): a `None` value is ignored;
otherwise the first accepted timestamp is recorded and the sample appended.
(Non-numeric values, also ignored by the source, cannot arise in ℚ.) -/
def Sampler.add (s : Sampler) (ts : ℚ) (value : Option ℚ) : Sampler :=
  match value with
  | none => s
  | some v =>
      { s with
        t0 := match s.t0 with | none => some ts | some t => some t,
        samples := s.samples ++ [(ts, v)] }

/-- `FixedWindowSampler.elapsed` (lines 80-83). -/
def Sampler.elapsed (s : Sampler) (now : ℚ) : ℚ :=
  match s.t0 with
  | none => 0
  | some t0 => max 0 (now - t0)

/-- `FixedWindowSampler.done` (lines 85-86). -/
def Sampler.done (s : Sampler) (now : ℚ) : Bool :=
  s.elapsed now ≥ s.window_s

/-- The `avg` field of `FixedWindowSampler.stats()` (lines 88-97):
`None` when no sample was accepted, else the arithmetic mean. -/
def Sampler.statsAvg (s : Sampler) : Option ℚ :=
  if s.samples = [] then none
  else some ((s.samples.map Prod.snd).sum / s.samples.length)

/-- `PersistLatch` (lines 100-117): its whole state is `t_first_true`.
`hit cond now persist_s` returns the fired flag and the new state. -/
def PersistLatch.hit (t_first_true : Option ℚ) (cond : Bool) (now persist_s : ℚ) :
    Bool × Option ℚ :=
  if cond then
    match t_first_true with
    | none => (false, some now)
    | some t0 => (decide (now - t0 ≥ persist_s), some t0)
  else
    (false, none)

@[simp] theorem PersistLatch.hit_false (s : Option ℚ) (now p : ℚ) :
    PersistLatch.hit s false now p = (false, none) := rfl

@[simp] theorem PersistLatch.hit_none_true (now p : ℚ) :
    PersistLatch.hit none true now p = (false, some now) := rfl

@[simp] theorem PersistLatch.hit_some_true (t0 now p : ℚ) :
    PersistLatch.hit (some t0) true now p = (decide (now - t0 ≥ p), some t0) := rfl

/-- First call never fires, whatever the condition (lines 110-116). -/
theorem PersistLatch.hit_fst_of_none (c : Bool) (now p : ℚ) :
    (PersistLatch.hit none c now p).1 = false := by
  cases c <;> rfl

/-- The live readings seen by one `evaluate` call, after the
`_live_get` + `_f` extraction (lines 149-187 and 245-255): each known
key's numeric value, or `none` when the key is absent, null or
non-numeric.  `pe` holds the raw numeric value to which `_as01` is then
applied. -/
structure Live where
  pe : Option ℚ
  pint : Option ℚ
  qp : Option ℚ
  qr : Option ℚ
  ct : Option ℚ
deriving DecidableEq, Repr

/-- `_as01` (lines 164-172) on a numeric reading: `int(v)` truncates
toward zero, so `int(v) != 0` iff `v ≤ -1 ∨ 1 ≤ v`; booleans arrive as
0/1 already. -/
def as01 (x : Option ℚ) : Option Int :=
  match x with
  | none => none
  | some v => some (if v ≤ -1 ∨ 1 ≤ v then 1 else 0)

/-- Python `cfg.get(k, d) or d` (e.g. line 234): both a missing key and a
falsy stored value (0) fall back to the default. -/
def or_default (x : Option ℚ) (d : ℚ) : ℚ :=
  match x with
  | none => d
  | some v => if v = 0 then d else v

/-- The cfg dict consumed by `evaluate` (lines 227-242): reference values,
timing parameters and thresholds, each possibly absent. -/
structure Cfg where
  ref_pint_work : Option ℚ := none
  ref_qp : Option ℚ := none
  ref_qr : Option ℚ := none
  ref_qsum : Option ℚ := none
  ref_ct : Option ℚ := none
  t_precheck_s : Option ℚ := none
  t_start_ignore_s : Option ℚ := none
  t_stable_s : Option ℚ := none
  t_persist_s : Option ℚ := none
  w_avg_s : Option ℚ := none
  pint_pre_zero_th : Option ℚ := none
  pint_pre_ok_th : Option ℚ := none
  cond_high_pct : Option ℚ := none
deriving DecidableEq, Repr

/-- Per-device engine state, `_get_state` (lines 192-210); each latch is
its `t_first_true` field. -/
structure DevState where
  eng_state : String
  t_cycle_start : Option ℚ
  t_high_start : Option ℚ
  pre_sampler : Option Sampler
  pint_off_baseline : Option ℚ
  prod_since : Option ℚ
  latch_A : Option ℚ
  latch_B : Option ℚ
  latch_C : Option ℚ
  latch_D : Option ℚ
  latch_E : Option ℚ
  latch_F : Option ℚ
deriving DecidableEq, Repr

/-- Fresh per-device state (lines 195-208). -/
def initState : DevState :=
  { eng_state := S_IDLE, t_cycle_start := none, t_high_start := none,
    pre_sampler := none, pint_off_baseline := none, prod_since := none,
    latch_A := none, latch_B := none, latch_C := none,
    latch_D := none, latch_E := none, latch_F := none }

/-- `qp_low` (line 410). -/
def qp_low (qp ref_qp : Option ℚ) : Bool :=
  match qp, ref_qp with
  | some q, some r => decide (q < r * 0.90)
  | _, _ => false

/-- `qp_very_low` (line 411). -/
def qp_very_low (qp ref_qp : Option ℚ) : Bool :=
  match qp, ref_qp with
  | some q, some r => decide (q < r * 0.10)
  | _, _ => false

/-- `qr_low` (line 413). -/
def qr_low (qr ref_qr : Option ℚ) : Bool :=
  match qr, ref_qr with
  | some q, some r => decide (q < r * 0.70)
  | _, _ => false

/-- `qr_high` (line 414). -/
def qr_high (qr ref_qr : Option ℚ) : Bool :=
  match qr, ref_qr with
  | some q, some r => decide (q > r * 1.20)
  | _, _ => false

/-- `qsum_low` (line 416). -/
def qsum_low (qsum ref_qsum : Option ℚ) : Bool :=
  match qsum, ref_qsum with
  | some q, some r => decide (q < r * 0.90)
  | _, _ => false

/-- `qsum_ok` (line 417). -/
def qsum_ok (qsum ref_qsum : Option ℚ) : Bool :=
  match qsum, ref_qsum with
  | some q, some r => decide (q ≥ r * 0.95)
  | _, _ => false

/-- `pint_high` (line 419). -/
def pint_high (pint ref_pint_work : Option ℚ) : Bool :=
  match pint, ref_pint_work with
  | some p, some r => decide (p > r * 1.07)
  | _, _ => false

/-- `pint_low` (line 420). -/
def pint_low (pint ref_pint_work : Option ℚ) : Bool :=
  match pint, ref_pint_work with
  | some p, some r => decide (p < r * 0.70)
  | _, _ => false

/-- `pint_ok` (line 421). -/
def pint_ok (pint ref_pint_work : Option ℚ) : Bool :=
  match pint, ref_pint_work with
  | some p, some r => decide (r * 0.90 ≤ p ∧ p ≤ r * 1.07)
  | _, _ => false

/-- `ct_high` (lines 424-428): only evaluated once `ct_valid`, against
`ref_ct * (1 + pct/100)`. -/
def ct_high (ct_valid : Bool) (ct ref_ct : Option ℚ) (pct : ℚ) : Bool :=
  ct_valid &&
    (match ct, ref_ct with
     | some c, some r => decide (c > r * (1 + pct / 100))
     | _, _ => false)

/-- Rule A predicate (lines 433-439): reject high (or positive without a
reference) + permeate very low (or ≤ 0.05 absolute) + conductivity ≤ 1. -/
def cond_A (qp qr ct ref_qp ref_qr : Option ℚ) : Bool :=
  (qr_high qr ref_qr ||
     (match qr, ref_qr with | some q, none => decide (q > 0) | _, _ => false)) &&
  (qp_very_low qp ref_qp ||
     (match qp with | some q => decide (q ≤ 0.05) | none => false)) &&
  (match ct with | some c => decide (c ≤ 1.0) | none => false)

/-- Rule B predicate (lines 461-463). -/
def cond_B (ctH : Bool) (qp qr ref_qp ref_qr : Option ℚ) : Bool :=
  ctH &&
  (match qp, ref_qp with | some q, some r => decide (q > r * 1.05) | _, _ => false) &&
  (qr_low qr ref_qr ||
     (match qr, ref_qr with | some q, some r => decide (q ≤ r) | _, _ => false))

/-- Rule C predicate (lines 485-487). -/
def cond_C (pint qp qr ref_pint_work ref_qp ref_qr : Option ℚ) : Bool :=
  pint_low pint ref_pint_work &&
  (qr_high qr ref_qr ||
     (match qr, ref_qr with | some q, none => decide (q > 0) | _, _ => false)) &&
  (qp_low qp ref_qp || qp_very_low qp ref_qp)

/-- Rule D predicate (lines 509-511). -/
def cond_D (pint qp qr ref_pint_work ref_qp ref_qr : Option ℚ) : Bool :=
  pint_high pint ref_pint_work &&
  (qr_low qr ref_qr ||
     (match qr, ref_qr with | some q, some r => decide (q < r * 0.60) | _, _ => false)) &&
  (match qp, ref_qp with | some q, some r => decide (q > r * 1.05) | _, _ => false)

/-- Rule E predicate (lines 533-535). -/
def cond_E (pint qp qr ref_pint_work ref_qp ref_qr : Option ℚ) : Bool :=
  pint_high pint ref_pint_work &&
  (qr_low qr ref_qr ||
     (match qr, ref_qr with | some q, some r => decide (q ≤ r) | _, _ => false)) &&
  (match qp, ref_qp with | some q, some r => decide (q ≤ r * 1.00) | _, _ => false)

/-- Rule F predicate (lines 557-559). -/
def cond_F (ctH : Bool) (pint qsum ref_pint_work ref_qsum : Option ℚ) : Bool :=
  ctH && pint_ok pint ref_pint_work &&
  !qsum_low qsum ref_qsum && qsum_ok qsum ref_qsum

/-- `qsum` (lines 405-407): the combined flow, when both flows are known. -/
def qsum_of (qp qr : Option ℚ) : Option ℚ :=
  match qp, qr with
  | some a, some b => some (a + b)
  | _, _ => none

/-- The `PRODUCTION` block of `evaluate` (lines 395-593): per-rule latch
hits appending the rule's alarm, paired recommendation and severity in
source order A,B,C,D,E,F; the returned state carries the six updated
latches and nothing else changes. -/
def productionStep (now : ℚ) (pint qp qr ct : Option ℚ) (cfg : Cfg)
    (res : EngineResult) (st : DevState) : EngineResult × DevState :=
  let t_start_ignore_s := or_default cfg.t_start_ignore_s 60
  let t_persist_s := or_default cfg.t_persist_s 120
  let t_prod0 := or_default st.prod_since now
  let t_in_prod := now - t_prod0
  let ct_valid := !decide (t_in_prod < t_start_ignore_s)
  let qsum := qsum_of qp qr
  let pct := or_default cfg.cond_high_pct 20
  let ctH := ct_high ct_valid ct cfg.ref_ct pct
  let rA := PersistLatch.hit st.latch_A (cond_A qp qr ct cfg.ref_qp cfg.ref_qr) now t_persist_s
  let res := if rA.1 then
      { res with alarms := res.alarms ++ [⟨"A_FLUSH_BYPASS", SEV_WARN⟩],
                 recs := res.recs ++ [⟨"A_REC"⟩],
                 severity := max_sev res.severity SEV_WARN }
    else res
  let rB := PersistLatch.hit st.latch_B (cond_B ctH qp qr cfg.ref_qp cfg.ref_qr) now t_persist_s
  let res := if rB.1 then
      { res with alarms := res.alarms ++ [⟨"B_ORING_MEM", SEV_ALARM⟩],
                 recs := res.recs ++ [⟨"B_REC"⟩],
                 severity := max_sev res.severity SEV_ALARM }
    else res
  let rC := PersistLatch.hit st.latch_C
      (cond_C pint qp qr cfg.ref_pint_work cfg.ref_qp cfg.ref_qr) now t_persist_s
  let res := if rC.1 then
      { res with alarms := res.alarms ++ [⟨"C_AIRE_AGUA", SEV_WARN⟩],
                 recs := res.recs ++ [⟨"C_REC"⟩],
                 severity := max_sev res.severity SEV_WARN }
    else res
  let rD := PersistLatch.hit st.latch_D
      (cond_D pint qp qr cfg.ref_pint_work cfg.ref_qp cfg.ref_qr) now t_persist_s
  let res := if rD.1 then
      { res with alarms := res.alarms ++ [⟨"D_RECH_OBS", SEV_WARN⟩],
                 recs := res.recs ++ [⟨"D_REC"⟩],
                 severity := max_sev res.severity SEV_WARN }
    else res
  let rE := PersistLatch.hit st.latch_E
      (cond_E pint qp qr cfg.ref_pint_work cfg.ref_qp cfg.ref_qr) now t_persist_s
  let res := if rE.1 then
      { res with alarms := res.alarms ++ [⟨"E_MEM_OBS", SEV_WARN⟩],
                 recs := res.recs ++ [⟨"E_REC"⟩],
                 severity := max_sev res.severity SEV_WARN }
    else res
  let rF := PersistLatch.hit st.latch_F
      (cond_F ctH pint qsum cfg.ref_pint_work cfg.ref_qsum) now t_persist_s
  let res := if rF.1 then
      { res with alarms := res.alarms ++ [⟨"F_CT_HIGH", SEV_WARN⟩],
                 recs := res.recs ++ [⟨"F_REC"⟩],
                 severity := max_sev res.severity SEV_WARN }
    else res
  (res, { st with latch_A := rA.2, latch_B := rB.2, latch_C := rC.2,
                  latch_D := rD.2, latch_E := rE.2, latch_F := rF.2 })

/-- The `PRECHECK_SAMPLE_PINT_OFF` block of `evaluate` (lines 337-390):
feed the baseline sampler; on window completion either E01 + `STOPPED`
(near-zero or empty average), or optional W10 and the transition into
`PRODUCTION` (recording `prod_since`, resetting all six latches) followed
in the same call by the production rules. -/
def baselineStep (now : ℚ) (pint qp qr ct : Option ℚ) (cfg : Cfg)
    (res : EngineResult) (st : DevState) : EngineResult × DevState :=
  let t_precheck_s := or_default cfg.t_precheck_s 30
  let pint_pre_zero_th := or_default cfg.pint_pre_zero_th 0.05
  let sampler0 := match st.pre_sampler with
    | some s => s
    | none => Sampler.init t_precheck_s
  let sampler := sampler0.add now pint
  let st := { st with pre_sampler := some sampler }
  if ¬ sampler.done now then (res, st)
  else
    let pint_off_avg := sampler.statsAvg
    let st := { st with pint_off_baseline := pint_off_avg }
    match pint_off_avg with
    | none =>
        ({ res with alarms := res.alarms ++ [⟨"E01", SEV_ALARM⟩], severity := SEV_ALARM },
         { st with eng_state := S_STOPPED })
    | some avg =>
        if avg ≤ pint_pre_zero_th then
          ({ res with alarms := res.alarms ++ [⟨"E01", SEV_ALARM⟩], severity := SEV_ALARM },
           { st with eng_state := S_STOPPED })
        else
          let res := match cfg.ref_pint_work with
            | some r =>
                if avg < r * 0.95 then
                  { res with alarms := res.alarms ++ [⟨"W10", SEV_WARN⟩],
                             severity := SEV_WARN }
                else res
            | none => res
          let st := { st with eng_state := S_PRODUCTION, prod_since := some now,
                              latch_A := none, latch_B := none, latch_C := none,
                              latch_D := none, latch_E := none, latch_F := none }
          productionStep now pint qp qr ct cfg res st

/-- `DiagnosticoEngine.evaluate` (lines 215-595) for one device: stop
detection on `Ct == 0`, precheck start from `IDLE`/`STOPPED`, the
pressure-switch wait (E02 on timeout), then the baseline and production
blocks, threading the per-device state. -/
def evaluate (now : ℚ) (live : Live) (cfg : Cfg) (st : DevState) :
    EngineResult × DevState :=
  let t_precheck_s := or_default cfg.t_precheck_s 30
  let pe := as01 live.pe
  let pint := live.pint
  let qp := live.qp
  let qr := live.qr
  let ct := live.ct
  let eng := st.eng_state
  if ct = some (0 : ℚ) then
    if eng ≠ S_STOPPED ∧ eng ≠ S_IDLE then
      ({ severity := max_sev_first SEV_INFO SEV_INFO,
         alarms := [⟨"I_STOP", SEV_INFO⟩], recs := [] },
       { st with eng_state := S_STOPPED, t_cycle_start := none, t_high_start := none,
                 pre_sampler := none, prod_since := none,
                 latch_A := none, latch_B := none, latch_C := none,
                 latch_D := none, latch_E := none, latch_F := none })
    else
      ({ severity := max_sev_first SEV_INFO SEV_INFO, alarms := [], recs := [] },
       { st with eng_state := S_STOPPED })
  else
    let st := if eng = S_IDLE ∨ eng = S_STOPPED then
        { st with eng_state := S_PRECHECK_WAIT_PE, t_cycle_start := some now,
                  pre_sampler := some (Sampler.init t_precheck_s) }
      else st
    if st.eng_state = S_PRECHECK_WAIT_PE then
      let t0 := or_default st.t_cycle_start now
      if pe = some 1 then
        baselineStep now pint qp qr ct cfg {}
          { st with eng_state := S_PRECHECK_SAMPLE_PINT_OFF }
      else if now - t0 ≥ t_precheck_s then
        ({ severity := SEV_ALARM, alarms := [⟨"E02", SEV_ALARM⟩], recs := [] },
         { st with eng_state := S_STOPPED })
      else ({}, st)
    else if st.eng_state = S_PRECHECK_SAMPLE_PINT_OFF then
      baselineStep now pint qp qr ct cfg {} st
    else if st.eng_state = S_PRODUCTION then
      productionStep now pint qp qr ct cfg {} st
    else ({}, st)

/-- A sequence of `hit` calls on one latch: the list of returned fired
flags together with the final latch state. -/
def latch_run (D : ℚ) : List (Bool × ℚ) → Option ℚ → List Bool × Option ℚ
  | [], s => ([], s)
  | (c, t) :: rest, s =>
      let r := PersistLatch.hit s c t D
      let rr := latch_run D rest r.2
      (r.1 :: rr.1, rr.2)

theorem latch_run_all_true (D t0 : ℚ) (ts : List ℚ) :
    latch_run D (ts.map fun t => (true, t)) (some t0) =
      (ts.map fun t => decide (t - t0 ≥ D), some t0) := by
  induction ts with
  | nil => rfl
  | cons t ts ih => simp [latch_run, PersistLatch.hit, ih]

/-- C1. Persistence-latch debounce: a false observation clears the
recorded first-true time and returns false; the first true observation
records the clock and returns false; with the clock recorded at `t0`,
`hit` returns false at every call strictly before `t0 + D` and true at
every call at or after `t0 + D`, never clearing the recorded time while
the condition stays true — so over any run of continuously-true calls the
outputs are pointwise `decide (t0 + D ≤ t)`. -/
theorem C1_latch_debounce (D t0 : ℚ) (s : Option ℚ) :
    (∀ now, PersistLatch.hit s false now D = (false, none)) ∧
    (∀ now, PersistLatch.hit none true now D = (false, some now)) ∧
    (∀ t, t < t0 + D → PersistLatch.hit (some t0) true t D = (false, some t0)) ∧
    (∀ t, t0 + D ≤ t → PersistLatch.hit (some t0) true t D = (true, some t0)) ∧
    (∀ ts : List ℚ,
       latch_run D (ts.map fun t => (true, t)) (some t0) =
         (ts.map fun t => decide (t0 + D ≤ t), some t0)) := by
  refine ⟨fun now => rfl, fun now => rfl, ?_, ?_, ?_⟩
  · intro t ht
    have h : ¬(t - t0 ≥ D) := by linarith
    simp [PersistLatch.hit, h]
  · intro t ht
    have h : t - t0 ≥ D := by linarith
    simp [PersistLatch.hit, h]
  · intro ts
    rw [latch_run_all_true]
    refine congrArg (fun l => (l, some t0)) (List.map_congr_left fun t _ => ?_)
    refine decide_eq_decide.mpr ?_
    constructor <;> intro <;> linarith

/-- Witness for C1 at `D = 2`, `t0 = 5`. -/
theorem C1_latch_debounce_witness :
    PersistLatch.hit (some 5) true 6 2 = (false, some 5) ∧
    PersistLatch.hit (some 5) true 7 2 = (true, some 5) := by
  obtain ⟨-, -, h3, h4, -⟩ := C1_latch_debounce 2 5 (some 3)
  exact ⟨h3 6 (by norm_num), h4 7 (by norm_num)⟩

/-- C2. Stop detection: whenever an evaluation sees conductivity exactly
0, the state becomes `STOPPED`; if the prior state was a running one
(neither `IDLE` nor `STOPPED`) that same evaluation resets all six
latches, the baseline sampler and the phase timestamps and emits exactly
the one informational `I_STOP` alarm; from `IDLE` or `STOPPED` it emits
nothing and only forces the state to `STOPPED` — so with conductivity
held at 0 the alarm fires exactly once per transition, never again. -/
theorem C2_stop_detection (now : ℚ) (live : Live) (cfg : Cfg) (st : DevState)
    (hct : live.ct = some 0) :
    (evaluate now live cfg st).2.eng_state = S_STOPPED ∧
    (st.eng_state ≠ S_IDLE → st.eng_state ≠ S_STOPPED →
      (evaluate now live cfg st).1.alarms = [⟨"I_STOP", SEV_INFO⟩] ∧
      (evaluate now live cfg st).1.severity = SEV_INFO ∧
      (evaluate now live cfg st).2.latch_A = none ∧
      (evaluate now live cfg st).2.latch_B = none ∧
      (evaluate now live cfg st).2.latch_C = none ∧
      (evaluate now live cfg st).2.latch_D = none ∧
      (evaluate now live cfg st).2.latch_E = none ∧
      (evaluate now live cfg st).2.latch_F = none ∧
      (evaluate now live cfg st).2.pre_sampler = none ∧
      (evaluate now live cfg st).2.prod_since = none ∧
      (evaluate now live cfg st).2.t_cycle_start = none) ∧
    ((st.eng_state = S_IDLE ∨ st.eng_state = S_STOPPED) →
      (evaluate now live cfg st).1.alarms = [] ∧
      (evaluate now live cfg st).2 = { st with eng_state := S_STOPPED }) := by
  by_cases h1 : st.eng_state = S_IDLE <;> by_cases h2 : st.eng_state = S_STOPPED <;>
    simp [evaluate, hct, h1, h2, max_sev_first, sev_rank]

/-- Witness for C2: a device in `PRODUCTION` sees `Ct = 0`. -/
theorem C2_stop_detection_witness :
    (evaluate 1 ⟨none, none, none, none, some 0⟩ {}
        { initState with eng_state := S_PRODUCTION }).1.alarms
      = [⟨"I_STOP", SEV_INFO⟩] ∧
    (evaluate 1 ⟨none, none, none, none, some 0⟩ {}
        { initState with eng_state := S_PRODUCTION }).2.eng_state = S_STOPPED := by
  have h := C2_stop_detection 1 ⟨none, none, none, none, some 0⟩ {}
    { initState with eng_state := S_PRODUCTION } rfl
  exact ⟨(h.2.1 (by decide) (by decide)).1, h.1⟩

theorem sampler_init_add_elapsed (w now : ℚ) (v : Option ℚ) :
    ((Sampler.init w).add now v).elapsed now = 0 := by
  cases v <;> simp [Sampler.init, Sampler.add, Sampler.elapsed]

theorem sampler_add_window (s : Sampler) (ts : ℚ) (v : Option ℚ) :
    (s.add ts v).window_s = s.window_s := by
  cases v <;> rfl

theorem or_default_some_self (x : ℚ) : or_default (some x) x = x := by
  simp [or_default]

theorem sampler_init_window (w : ℚ) : (Sampler.init w).window_s = w := rfl

/-- C5 counterexample: an evaluation of an `IDLE` device that carries no
conductivity reading at all (`ct = none`, so in particular no non-zero
reading) still starts the precheck cycle instead of staying in
`IDLE`/`STOPPED`. -/
theorem C5_counterexample :
    (evaluate 0 ⟨none, none, none, none, none⟩ {} initState).2.eng_state
        = S_PRECHECK_WAIT_PE ∧
    S_PRECHECK_WAIT_PE ≠ S_IDLE ∧ S_PRECHECK_WAIT_PE ≠ S_STOPPED := by
  refine ⟨?_, by decide, by decide⟩
  have h30 : ¬(30 : ℚ) ≤ 0 := by norm_num
  simp [evaluate, initState, or_default, as01, h30]

/-- C5 as amended: from `IDLE`/`STOPPED` (with a positive precheck
window), an evaluation that does not see conductivity exactly 0 — the
reading being non-zero or absent — starts the precheck cycle: it records
the cycle-start time, arms a fresh baseline sampler over the precheck
window and moves to `PRECHECK_WAIT_PRESSURE_SWITCH` (or, when the
pressure switch already reads closed, straight into baseline sampling);
an evaluation that sees conductivity exactly 0 only forces the state to
`STOPPED`, with no alarm. -/
theorem C5_precheck_start (now : ℚ) (live : Live) (cfg : Cfg) (st : DevState)
    (h1 : st.eng_state = S_IDLE ∨ st.eng_state = S_STOPPED)
    (h2 : 0 < or_default cfg.t_precheck_s 30) :
    (live.ct ≠ some 0 →
      (evaluate now live cfg st).2.t_cycle_start = some now ∧
      (as01 live.pe ≠ some 1 →
        (evaluate now live cfg st).2 =
          { st with eng_state := S_PRECHECK_WAIT_PE, t_cycle_start := some now,
                    pre_sampler := some (Sampler.init (or_default cfg.t_precheck_s 30)) }) ∧
      (as01 live.pe = some 1 →
        (evaluate now live cfg st).2.eng_state = S_PRECHECK_SAMPLE_PINT_OFF ∧
        (evaluate now live cfg st).2.pre_sampler =
          some ((Sampler.init (or_default cfg.t_precheck_s 30)).add now live.pint))) ∧
    (live.ct = some 0 →
      (evaluate now live cfg st).2 = { st with eng_state := S_STOPPED } ∧
      (evaluate now live cfg st).1.alarms = []) := by
  constructor
  · intro hct
    have hdone : ((Sampler.init (or_default cfg.t_precheck_s 30)).add now live.pint).done now
        = false := by
      simp only [Sampler.done, sampler_init_add_elapsed, sampler_add_window,
        sampler_init_window, ge_iff_le, decide_eq_false_iff_not, not_le]
      exact h2
    have hE02 : ¬(or_default cfg.t_precheck_s 30 ≤ (0 : ℚ)) := not_le.mpr h2
    by_cases hpe : as01 live.pe = some 1
    · refine ⟨?_, fun hne => absurd hpe hne, fun _ => ⟨?_, ?_⟩⟩ <;>
        simp [evaluate, hct, h1, hpe, baselineStep, hdone, or_default_some_self, hE02]
    · refine ⟨?_, fun _ => ?_, fun hp => absurd hp hpe⟩ <;>
        simp [evaluate, hct, h1, hpe, or_default_some_self, hE02]
  · intro hct
    rcases h1 with h | h <;> simp [evaluate, hct, h]

/-- Witness for C5: an `IDLE` device with conductivity 50 and the switch
still open moves to `PRECHECK_WAIT_PRESSURE_SWITCH` with the timer started
and a fresh 30-second sampler armed. -/
theorem C5_precheck_start_witness :
    (evaluate 7 ⟨some 0, none, none, none, some 50⟩ {} initState).2 =
      { initState with eng_state := S_PRECHECK_WAIT_PE, t_cycle_start := some 7,
                       pre_sampler := some (Sampler.init 30) } := by
  have h := C5_precheck_start 7 ⟨some 0, none, none, none, some 50⟩ {} initState
    (Or.inl rfl) (by norm_num [or_default])
  exact (h.1 (by decide)).2.1 (by decide)

theorem PersistLatch.hit_none (c : Bool) (now p : ℚ) :
    PersistLatch.hit none c now p = (false, if c then some now else none) := by
  cases c <;> rfl

theorem or_default_some_ne (v d : ℚ) (h : v ≠ 0) : or_default (some v) d = v := by
  simp [or_default, h]

/-- With all six latches freshly reset, the production rules cannot fire:
the result is untouched and every latch afterwards is either clear or
stamped at this very call. -/
theorem productionStep_reset (now : ℚ) (pint qp qr ct : Option ℚ) (cfg : Cfg)
    (res : EngineResult) (st : DevState)
    (hA : st.latch_A = none) (hB : st.latch_B = none) (hC : st.latch_C = none)
    (hD : st.latch_D = none) (hE : st.latch_E = none) (hF : st.latch_F = none) :
    (productionStep now pint qp qr ct cfg res st).1 = res ∧
    (productionStep now pint qp qr ct cfg res st).2.eng_state = st.eng_state ∧
    (productionStep now pint qp qr ct cfg res st).2.prod_since = st.prod_since ∧
    ((productionStep now pint qp qr ct cfg res st).2.latch_A = none ∨
     (productionStep now pint qp qr ct cfg res st).2.latch_A = some now) ∧
    ((productionStep now pint qp qr ct cfg res st).2.latch_B = none ∨
     (productionStep now pint qp qr ct cfg res st).2.latch_B = some now) ∧
    ((productionStep now pint qp qr ct cfg res st).2.latch_C = none ∨
     (productionStep now pint qp qr ct cfg res st).2.latch_C = some now) ∧
    ((productionStep now pint qp qr ct cfg res st).2.latch_D = none ∨
     (productionStep now pint qp qr ct cfg res st).2.latch_D = some now) ∧
    ((productionStep now pint qp qr ct cfg res st).2.latch_E = none ∨
     (productionStep now pint qp qr ct cfg res st).2.latch_E = some now) ∧
    ((productionStep now pint qp qr ct cfg res st).2.latch_F = none ∨
     (productionStep now pint qp qr ct cfg res st).2.latch_F = some now) := by
  simp only [productionStep, hA, hB, hC, hD, hE, hF, PersistLatch.hit_none,
    Bool.false_eq_true, if_false]
  refine ⟨by trivial, by trivial, by trivial, ?_, ?_, ?_, ?_, ?_, ?_⟩ <;>
    (dsimp only; split <;> simp)

/-- C4. Baseline completion: in `PRECHECK_SAMPLE_PINT_OFF`, once the
sampling window has elapsed, an average that is absent (no accepted
sample) or at most the near-zero threshold yields exactly the fatal E01
alarm and `STOPPED`; otherwise the engine enters `PRODUCTION`, records
the production-start time, resets all six fault latches (every latch
afterwards holds no stamp older than this very call, so no rule A-F alarm
can fire in this evaluation) and emits exactly one W10 warning iff a
nominal reference pressure is configured and the average is below 95% of
it, and nothing otherwise. -/
theorem C4_baseline_completion (now : ℚ) (live : Live) (cfg : Cfg) (st : DevState)
    (sp : Sampler)
    (h1 : st.eng_state = S_PRECHECK_SAMPLE_PINT_OFF)
    (h2 : st.pre_sampler = some sp)
    (hct : live.ct ≠ some 0)
    (hdone : (sp.add now live.pint).done now = true) :
    (((sp.add now live.pint).statsAvg = none ∨
      (∃ a, (sp.add now live.pint).statsAvg = some a ∧
            a ≤ or_default cfg.pint_pre_zero_th 0.05)) →
       (evaluate now live cfg st).1.alarms = [⟨"E01", SEV_ALARM⟩] ∧
       (evaluate now live cfg st).1.severity = SEV_ALARM ∧
       (evaluate now live cfg st).1.recs = [] ∧
       (evaluate now live cfg st).2.eng_state = S_STOPPED) ∧
    (∀ a, (sp.add now live.pint).statsAvg = some a →
       ¬ a ≤ or_default cfg.pint_pre_zero_th 0.05 →
       (evaluate now live cfg st).2.eng_state = S_PRODUCTION ∧
       (evaluate now live cfg st).2.prod_since = some now ∧
       ((evaluate now live cfg st).2.latch_A = none ∨
        (evaluate now live cfg st).2.latch_A = some now) ∧
       ((evaluate now live cfg st).2.latch_B = none ∨
        (evaluate now live cfg st).2.latch_B = some now) ∧
       ((evaluate now live cfg st).2.latch_C = none ∨
        (evaluate now live cfg st).2.latch_C = some now) ∧
       ((evaluate now live cfg st).2.latch_D = none ∨
        (evaluate now live cfg st).2.latch_D = some now) ∧
       ((evaluate now live cfg st).2.latch_E = none ∨
        (evaluate now live cfg st).2.latch_E = some now) ∧
       ((evaluate now live cfg st).2.latch_F = none ∨
        (evaluate now live cfg st).2.latch_F = some now) ∧
       (evaluate now live cfg st).1.recs = [] ∧
       ((∃ r, cfg.ref_pint_work = some r ∧ a < r * 0.95) →
          (evaluate now live cfg st).1.alarms = [⟨"W10", SEV_WARN⟩] ∧
          (evaluate now live cfg st).1.severity = SEV_WARN) ∧
       ((∀ r, cfg.ref_pint_work = some r → ¬ a < r * 0.95) →
          (evaluate now live cfg st).1.alarms = [] ∧
          (evaluate now live cfg st).1.severity = SEV_INFO)) := by
  have heval : evaluate now live cfg st =
      baselineStep now live.pint live.qp live.qr live.ct cfg {} st := by
    simp [evaluate, hct, h1, S_PRECHECK_SAMPLE_PINT_OFF, S_IDLE, S_STOPPED,
      S_PRECHECK_WAIT_PE]
  rw [heval]
  constructor
  · rintro (hav | ⟨a, hav, hle⟩)
    · simp [baselineStep, h2, hdone, hav]
    · simp [baselineStep, h2, hdone, hav, hle]
  · intro a hav hgt
    simp only [baselineStep, h2, hav, hdone, not_true_eq_false, if_false, if_neg hgt]
    rcases hrw : cfg.ref_pint_work with _ | r
    · obtain ⟨g1, g2, g3, g4, g5, g6, g7, g8, g9⟩ :=
        productionStep_reset now live.pint live.qp live.qr live.ct cfg {}
          { st with pre_sampler := some (sp.add now live.pint),
                    pint_off_baseline := some a,
                    eng_state := S_PRODUCTION, prod_since := some now,
                    latch_A := none, latch_B := none, latch_C := none,
                    latch_D := none, latch_E := none, latch_F := none }
          rfl rfl rfl rfl rfl rfl
      refine ⟨g2, g3, g4, g5, g6, g7, g8, g9, by simp [g1], ?_, ?_⟩
      · rintro ⟨r, hr, -⟩
        cases hr
      · intro hno
        simp [g1]
    · by_cases hlt : a < r * 0.95
      · simp only [if_pos hlt]
        obtain ⟨g1, g2, g3, g4, g5, g6, g7, g8, g9⟩ :=
          productionStep_reset now live.pint live.qp live.qr live.ct cfg
            { severity := SEV_WARN, alarms := [⟨"W10", SEV_WARN⟩], recs := [] }
            { st with pre_sampler := some (sp.add now live.pint),
                      pint_off_baseline := some a,
                      eng_state := S_PRODUCTION, prod_since := some now,
                      latch_A := none, latch_B := none, latch_C := none,
                      latch_D := none, latch_E := none, latch_F := none }
            rfl rfl rfl rfl rfl rfl
        refine ⟨g2, g3, g4, g5, g6, g7, g8, g9, by simp [g1], fun _ => by simp [g1], ?_⟩
        intro hno
        exact absurd hlt (hno r rfl)
      · simp only [if_neg hlt]
        obtain ⟨g1, g2, g3, g4, g5, g6, g7, g8, g9⟩ :=
          productionStep_reset now live.pint live.qp live.qr live.ct cfg {}
            { st with pre_sampler := some (sp.add now live.pint),
                      pint_off_baseline := some a,
                      eng_state := S_PRODUCTION, prod_since := some now,
                      latch_A := none, latch_B := none, latch_C := none,
                      latch_D := none, latch_E := none, latch_F := none }
            rfl rfl rfl rfl rfl rfl
        refine ⟨g2, g3, g4, g5, g6, g7, g8, g9, by simp [g1], ?_, fun _ => by simp [g1]⟩
        rintro ⟨r2, hr2, hlt2⟩
        cases hr2
        exact absurd hlt2 hlt

/-- Witness for C4: a 30-second baseline of average 1.9 bar with a
configured reference of 2.5 bar enters `PRODUCTION` with the single W10
warning. -/
theorem C4_baseline_completion_witness :
    (evaluate 30 ⟨some 1, some (19/10), none, none, some 50⟩
        { ref_pint_work := some (5/2) }
        { initState with eng_state := S_PRECHECK_SAMPLE_PINT_OFF,
                         pre_sampler := some ⟨30, some 0, [(0, 19/10)]⟩ }).1.alarms
      = [⟨"W10", SEV_WARN⟩] ∧
    (evaluate 30 ⟨some 1, some (19/10), none, none, some 50⟩
        { ref_pint_work := some (5/2) }
        { initState with eng_state := S_PRECHECK_SAMPLE_PINT_OFF,
                         pre_sampler := some ⟨30, some 0, [(0, 19/10)]⟩ }).2.eng_state
      = S_PRODUCTION := by
  have h := C4_baseline_completion 30 ⟨some 1, some (19/10), none, none, some 50⟩
    { ref_pint_work := some (5/2) }
    { initState with eng_state := S_PRECHECK_SAMPLE_PINT_OFF,
                     pre_sampler := some ⟨30, some 0, [(0, 19/10)]⟩ }
    ⟨30, some 0, [(0, 19/10)]⟩ rfl rfl (by decide)
    (by norm_num [Sampler.add, Sampler.done, Sampler.elapsed, max_def])
  have h2 := h.2 (19/10)
    (by norm_num [Sampler.add, Sampler.statsAvg]; simp)
    (by norm_num [or_default])
  exact ⟨(h2.2.2.2.2.2.2.2.2.2.1 ⟨5/2, rfl, by norm_num⟩).1, h2.1⟩

/-- C3. Rule F and rule exclusivity: in `PRODUCTION`, once the
conductivity-ignore window has elapsed since production start, an
evaluation whose readings satisfy rule F's predicate (conductivity above
`ref_ct * (1 + pct/100)`, inter-membrane pressure inside its
[90%, 107%] band, combined flow inside its normal band) and none of the
predicates of rules A-E, with the F latch recording a first-true time at
least the persistence window ago, emits exactly the one `F_CT_HIGH`
warning alarm with its paired `F_REC` recommendation and no A-E code;
the state stays in `PRODUCTION` with `prod_since` and the F latch stamp
unchanged (and the A-E latches clear), so every further such evaluation
fires again. -/
theorem C3_rule_F_exclusive (now tp tF : ℚ) (live : Live) (cfg : Cfg) (st : DevState)
    (hst : st.eng_state = S_PRODUCTION)
    (hprod : st.prod_since = some tp) (htp : tp ≠ 0)
    (hlF : st.latch_F = some tF)
    (hct : live.ct ≠ some 0)
    (hign : now - tp ≥ or_default cfg.t_start_ignore_s 60)
    (hper : now - tF ≥ or_default cfg.t_persist_s 120)
    (hfc : cond_F (ct_high true live.ct cfg.ref_ct (or_default cfg.cond_high_pct 20))
             live.pint (qsum_of live.qp live.qr) cfg.ref_pint_work cfg.ref_qsum = true)
    (hA : cond_A live.qp live.qr live.ct cfg.ref_qp cfg.ref_qr = false)
    (hB : cond_B (ct_high true live.ct cfg.ref_ct (or_default cfg.cond_high_pct 20))
            live.qp live.qr cfg.ref_qp cfg.ref_qr = false)
    (hC : cond_C live.pint live.qp live.qr cfg.ref_pint_work cfg.ref_qp cfg.ref_qr = false)
    (hD : cond_D live.pint live.qp live.qr cfg.ref_pint_work cfg.ref_qp cfg.ref_qr = false)
    (hE : cond_E live.pint live.qp live.qr cfg.ref_pint_work cfg.ref_qp cfg.ref_qr = false) :
    (evaluate now live cfg st).1 =
      { severity := SEV_WARN, alarms := [⟨"F_CT_HIGH", SEV_WARN⟩], recs := [⟨"F_REC"⟩] } ∧
    (evaluate now live cfg st).2.eng_state = S_PRODUCTION ∧
    (evaluate now live cfg st).2.prod_since = some tp ∧
    (evaluate now live cfg st).2.latch_F = some tF ∧
    (evaluate now live cfg st).2.latch_A = none ∧
    (evaluate now live cfg st).2.latch_B = none ∧
    (evaluate now live cfg st).2.latch_C = none ∧
    (evaluate now live cfg st).2.latch_D = none ∧
    (evaluate now live cfg st).2.latch_E = none := by
  have heval : evaluate now live cfg st =
      productionStep now live.pint live.qp live.qr live.ct cfg {} st := by
    simp [evaluate, hct, hst, S_PRODUCTION, S_IDLE, S_STOPPED, S_PRECHECK_WAIT_PE,
      S_PRECHECK_SAMPLE_PINT_OFF]
  have hctv : ¬(now - tp < or_default cfg.t_start_ignore_s 60) := not_lt.mpr hign
  have hfire : now - tF ≥ or_default cfg.t_persist_s 120 := hper
  rw [heval]
  simp [productionStep, hprod, or_default_some_ne tp now htp, hctv, hA, hB, hC, hD, hE,
    hlF, hfc, hfire, hst, max_sev, sev_rank, SEV_INFO, SEV_WARN]

/-- Witness for C3: the end-to-end scenario values — references
`pint = 2`, `qp = 500`, `qr = 200`, `qsum = 700`, `ct = 100`; readings
`pint = 2`, `qp = 510`, `qr = 210`, `ct = 200`; production since `t =
100`, F first-true since `t = 170`, evaluated at `t = 300`. -/
theorem C3_rule_F_exclusive_witness :
    (evaluate 300 ⟨some 1, some 2, some 510, some 210, some 200⟩
        { ref_pint_work := some 2, ref_qp := some 500, ref_qr := some 200,
          ref_qsum := some 700, ref_ct := some 100 }
        { initState with eng_state := S_PRODUCTION, prod_since := some 100,
                         latch_F := some 170 }).1 =
      { severity := SEV_WARN, alarms := [⟨"F_CT_HIGH", SEV_WARN⟩], recs := [⟨"F_REC"⟩] } := by
  have h := C3_rule_F_exclusive 300 100 170
    ⟨some 1, some 2, some 510, some 210, some 200⟩
    { ref_pint_work := some 2, ref_qp := some 500, ref_qr := some 200,
      ref_qsum := some 700, ref_ct := some 100 }
    { initState with eng_state := S_PRODUCTION, prod_since := some 100,
                     latch_F := some 170 }
    rfl rfl (by norm_num) rfl (by decide)
    (by norm_num [or_default]) (by norm_num [or_default])
    (by norm_num [cond_F, ct_high, pint_ok, qsum_low, qsum_ok, qsum_of, or_default])
    (by norm_num [cond_A, qr_high, qp_very_low])
    (by norm_num [cond_B, ct_high, qr_low, or_default])
    (by norm_num [cond_C, pint_low, qr_high, qp_low, qp_very_low])
    (by norm_num [cond_D, pint_high, qr_low])
    (by norm_num [cond_E, pint_high, qr_low])
  exact h.1

/-- A JSON-ish scalar value as carried in snapshots and payloads
(`telemetry_writer.py`, `mqtt_ingestor.py`). -/
inductive JVal where
  | num (q : ℚ)
  | str (s : String)
  | boolean (b : Bool)
  | jnull
deriving DecidableEq, Repr

/-- Python `dict.update(d)` over a snapshot, `d` given as its pairs in
iteration order (`telemetry_writer.py` lines 108-115): later keys win. -/
def updateKeys (snap : String → Option JVal) (upd : List (String × JVal)) :
    String → Option JVal :=
  upd.foldl (fun s kv k => if k = kv.1 then some kv.2 else s k) snap

/-- One persistence row (`telemetry_writer.py` lines 117-135): the
timestamp, the device and the eleven known tele/state fields read from
the just-merged snapshot.  `now_dt` and `now_ts` are the same instant of
the same wall clock, modelled by one rational timestamp. -/
structure Row where
  ts : ℚ
  device_id : String
  presostat_low : Option JVal
  pressure_inter : Option JVal
  flow_perm : Option JVal
  flow_reject : Option JVal
  conductivity_perm : Option JVal
  pressure_feed : Option JVal
  temperature_feed : Option JVal
  float_call : Option JVal
  valve_feed : Option JVal
  pump_low : Option JVal
  pump_high : Option JVal
deriving DecidableEq, Repr

/-- The row literal of lines 117-135. -/
def buildRow (now_dt : ℚ) (device_id : String) (snap : String → Option JVal) : Row :=
  { ts := now_dt, device_id := device_id,
    presostat_low := snap "presostat_low",
    pressure_inter := snap "pressure_inter",
    flow_perm := snap "flow_perm",
    flow_reject := snap "flow_reject",
    conductivity_perm := snap "conductivity_perm",
    pressure_feed := snap "pressure_feed",
    temperature_feed := snap "temperature_feed",
    float_call := snap "float_call",
    valve_feed := snap "valve_feed",
    pump_low := snap "pump_low",
    pump_high := snap "pump_high" }

/-- `TelemetryWriter` lock-protected state (lines 73-76): the in-memory
batch, the last accepted-write timestamp per device
(`dict.get(device_id, 0.0)` on read) and the per-device snapshot
(`setdefault(device_id, {})` on read). -/
structure WriterState where
  buf : List Row
  last_write_ts_by_dev : String → Option ℚ
  last_snapshot_by_dev : String → (String → Option JVal)

/-- `TelemetryWriter.enqueue` (lines 97-142): under the lock, merge
`tele` then `state` into the device snapshot; if less than
`min_interval_s` elapsed since the last accepted write, stop there;
otherwise append one row built from the just-merged snapshot, record the
accepted-write time and (outside the lock) run one diagnosis pass on a
copy of the snapshot — returned here as `some snapshot`. -/
def enqueue (w : WriterState) (min_interval_s : ℚ) (device_id : String)
    (tele state : List (String × JVal)) (now_ts : ℚ) :
    WriterState × Option (String → Option JVal) :=
  let last_ts := (w.last_write_ts_by_dev device_id).getD 0
  if now_ts - last_ts < min_interval_s then
    let snap := updateKeys (updateKeys (w.last_snapshot_by_dev device_id) tele) state
    ({ w with last_snapshot_by_dev :=
         fun d => if d = device_id then snap else w.last_snapshot_by_dev d },
     none)
  else
    let snap := updateKeys (updateKeys (w.last_snapshot_by_dev device_id) tele) state
    ({ buf := w.buf ++ [buildRow now_ts device_id snap],
       last_write_ts_by_dev :=
         fun d => if d = device_id then some now_ts else w.last_write_ts_by_dev d,
       last_snapshot_by_dev :=
         fun d => if d = device_id then snap else w.last_snapshot_by_dev d },
     some snap)

/-- Outcome of one `TelemetryWriter.flush` call (lines 229-240). -/
inductive FlushOutcome where
  | noop
  | persisted (rows : List Row)
  | raised
deriving DecidableEq, Repr

/-- `TelemetryWriter.flush` (lines 229-240): under the lock the batch is
copied out and `_buf` cleared; then `insert_telemetry_batch` runs with no
`except` clause — `store_ok = false` models the store raising, in which
case the popped batch is simply lost and the exception propagates
(`raised`), `_buf` staying empty either way. -/
def flush (w : WriterState) (store_ok : Bool) : WriterState × FlushOutcome :=
  if w.buf = [] then (w, FlushOutcome.noop)
  else
    if store_ok then ({ w with buf := [] }, FlushOutcome.persisted w.buf)
    else ({ w with buf := [] }, FlushOutcome.raised)

/-- One row of the `alarms` table (`models.py` lines 75-86) as far as
deduplication is concerned. -/
structure AlarmRow where
  device_id : String
  code : String
  severity : String
  ts : ℚ
deriving DecidableEq, Repr

/-- `TelemetryWriter.COOLDOWN_MINUTES` (line 66). -/
def COOLDOWN_MINUTES : ℚ := 15

/-- `_alarm_recent` (`telemetry_writer.py` lines 31-46): is there an
alarm of this device and code with `ts >= now - minutes`?  Timestamps
are in seconds, so the cutoff is `now - minutes * 60`. -/
def alarm_recent (store : List AlarmRow) (now : ℚ) (device_id code : String)
    (minutes : ℚ) : Bool :=
  let cutoff := now - minutes * 60
  store.any fun a =>
    decide (a.device_id = device_id) && decide (a.code = code) && decide (a.ts ≥ cutoff)

/-- The alarms loop of `_run_diagnosis` (lines 190-202): each candidate
is dropped when `_alarm_recent` holds, else inserted (committed at once,
so later candidates of the same pass see it). -/
def persistAlarms (store : List AlarmRow) (device_id : String) (now : ℚ)
    (alarms : List AlarmEvent) : List AlarmRow :=
  alarms.foldl
    (fun s a =>
      if alarm_recent s now device_id a.code COOLDOWN_MINUTES then s
      else s ++ [⟨device_id, a.code, a.severity, now⟩])
    store

/-- The recommendations loop of `_run_diagnosis` (lines 205-217) with
`insert_recommendation` (`crud.py` lines 228-254): the candidate code is
`"REC_" ++ code`, checked against the same cooldown, and stored as an
`Alarm` row with that prefixed code and severity `"info"`. -/
def persistRecs (store : List AlarmRow) (device_id : String) (now : ℚ)
    (recs : List Recommendation) : List AlarmRow :=
  recs.foldl
    (fun s r =>
      if alarm_recent s now device_id ("REC_" ++ r.code) COOLDOWN_MINUTES then s
      else s ++ [⟨device_id, "REC_" ++ r.code, "info", now⟩])
    store

/-- The persistence effect of `_run_diagnosis` (lines 189-217): alarms
first, then recommendations. -/
def run_diagnosis_persist (store : List AlarmRow) (device_id : String) (now : ℚ)
    (alarms : List AlarmEvent) (recs : List Recommendation) : List AlarmRow :=
  persistRecs (persistAlarms store device_id now alarms) device_id now recs

/-- The rows of a device and code in the store. -/
def countCode (store : List AlarmRow) (device_id code : String) : ℕ :=
  (store.filter fun a =>
    decide (a.device_id = device_id) && decide (a.code = code)).length

/-- A decoded MQTT payload (`_decode_payload`, `mqtt_ingestor.py` lines
62-69): a JSON value, or the raw string when JSON parsing fails.  Python
`bool` is a subclass of `int`, so booleans pass `isinstance(x, (int,
float))` with `float(True) = 1.0`. -/
inductive Payload where
  | num (x : ℚ)
  | boolean (b : Bool)
  | pstr (s : String)
  | obj (kvs : List (String × Payload))
  | arr (xs : List Payload)
  | jnull
deriving Repr

/-- `TELE_KEYS` (`mqtt_ingestor.py` lines 19-27). -/
def TELE_KEYS : List String :=
  ["presostat_low", "pressure_inter", "flow_perm", "flow_reject",
   "conductivity_perm", "pressure_feed", "temperature_feed"]

/-- `_tele_value` (lines 72-77): a raw number (booleans included, as
0/1), or a dict whose key `"v"` holds a number or boolean; anything else
is `None`.  JSON objects have unique keys, so first-match lookup is the
dict lookup. -/
def tele_value : Payload → Option ℚ
  | .num x => some x
  | .boolean b => some (if b then 1 else 0)
  | .obj kvs =>
      match kvs.lookup "v" with
      | some (.num x) => some x
      | some (.boolean b) => some (if b then 1 else 0)
      | _ => none
  | _ => none

/-- The `tele` branch of `_on_message` (lines 130-142): the first
residual-path segment must name a known field and the payload must
decode to a value; then `(field, value)` is forwarded to both the engine
and the writer, else the message is dropped (`none`). -/
def on_message_tele (rest : List String) (payload : Payload) : Option (String × ℚ) :=
  match rest with
  | [] => none
  | key :: _ =>
      if key ∈ TELE_KEYS then (tele_value payload).map (fun v => (key, v))
      else none

/-- C6. Writer rate limiting and coalescing: a call less than
`min_interval_s` after the device's last accepted write merges the fields
into the snapshot but appends no row, leaves the accepted-write
timestamps untouched and runs no diagnosis pass; a call at or past the
interval appends exactly one row built from the just-merged snapshot,
records the accepted-write time and triggers exactly one diagnosis pass
on that snapshot — so the snapshot always holds the latest merged values
however many updates were coalesced. -/
theorem C6_writer_rate_limit (w : WriterState) (mi : ℚ) (dev : String)
    (tele state : List (String × JVal)) (now : ℚ) :
    (now - ((w.last_write_ts_by_dev dev).getD 0) < mi →
       (enqueue w mi dev tele state now).1.buf = w.buf ∧
       (enqueue w mi dev tele state now).1.last_write_ts_by_dev = w.last_write_ts_by_dev ∧
       (enqueue w mi dev tele state now).2 = none ∧
       (enqueue w mi dev tele state now).1.last_snapshot_by_dev dev =
         updateKeys (updateKeys (w.last_snapshot_by_dev dev) tele) state) ∧
    (¬ now - ((w.last_write_ts_by_dev dev).getD 0) < mi →
       (enqueue w mi dev tele state now).1.buf =
         w.buf ++ [buildRow now dev
           (updateKeys (updateKeys (w.last_snapshot_by_dev dev) tele) state)] ∧
       (enqueue w mi dev tele state now).1.last_write_ts_by_dev dev = some now ∧
       (enqueue w mi dev tele state now).2 =
         some (updateKeys (updateKeys (w.last_snapshot_by_dev dev) tele) state) ∧
       (enqueue w mi dev tele state now).1.last_snapshot_by_dev dev =
         updateKeys (updateKeys (w.last_snapshot_by_dev dev) tele) state) := by
  constructor
  · intro h
    simp [enqueue, h]
  · intro h
    simp [enqueue, h]

/-- Witness for C6: with an empty writer and a 5-second interval, a call
at `t = 1` (last accepted defaulting to 0) coalesces; a call at `t = 7`
appends the row and triggers the pass. -/
theorem C6_writer_rate_limit_witness :
    (enqueue ⟨[], fun _ => none, fun _ _ => none⟩ 5 "d"
        [("flow_perm", JVal.num 3)] [] 1).1.buf = [] ∧
    (enqueue ⟨[], fun _ => none, fun _ _ => none⟩ 5 "d"
        [("flow_perm", JVal.num 3)] [] 1).2 = none ∧
    (enqueue ⟨[], fun _ => none, fun _ _ => none⟩ 5 "d"
        [("flow_perm", JVal.num 3)] [] 7).1.buf =
      [buildRow 7 "d" (updateKeys (updateKeys (fun _ => none)
        [("flow_perm", JVal.num 3)]) [])] ∧
    (enqueue ⟨[], fun _ => none, fun _ _ => none⟩ 5 "d"
        [("flow_perm", JVal.num 3)] [] 7).1.last_write_ts_by_dev "d" = some 7 := by
  have h1 := C6_writer_rate_limit ⟨[], fun _ => none, fun _ _ => none⟩ 5 "d"
    [("flow_perm", JVal.num 3)] [] 1
  have h7 := C6_writer_rate_limit ⟨[], fun _ => none, fun _ _ => none⟩ 5 "d"
    [("flow_perm", JVal.num 3)] [] 7
  have g1 := h1.1 (by norm_num)
  have g7 := h7.2 (by norm_num)
  exact ⟨g1.1, g1.2.2.1, by simpa using g7.1, g7.2.1⟩

/-- C8 (the claim fails in the code): when the store raises during a
flush of a non-empty batch, the popped batch is NOT retained — `_buf` is
left empty and the exception propagates out of `flush` (and of the
background `_run` loop, which has no handler), so the buffered rows are
lost instead of being retried on the next tick. -/
theorem C8_flush_failure_loses_batch (w : WriterState) (h : w.buf ≠ []) :
    (flush w false).1.buf = [] ∧ (flush w false).2 = FlushOutcome.raised := by
  simp [flush, h]

/-- Witness for C8: one buffered row, store unavailable. -/
theorem C8_flush_failure_loses_batch_witness :
    (flush ⟨[buildRow 1 "d" (fun _ => none)], fun _ => none, fun _ _ => none⟩
        false).1.buf = [] ∧
    (flush ⟨[buildRow 1 "d" (fun _ => none)], fun _ => none, fun _ _ => none⟩
        false).2 = FlushOutcome.raised :=
  C8_flush_failure_loses_batch
    ⟨[buildRow 1 "d" (fun _ => none)], fun _ => none, fun _ _ => none⟩ (by simp)

theorem alarm_recent_append_single (store : List AlarmRow) (r : AlarmRow) (now : ℚ)
    (dev c : String) (m : ℚ) :
    alarm_recent (store ++ [r]) now dev c m =
      (alarm_recent store now dev c m ||
        (decide (r.device_id = dev) && decide (r.code = c) &&
         decide (r.ts ≥ now - m * 60))) := by
  simp [alarm_recent, List.any_append]

theorem alarm_recent_false_mono (store : List AlarmRow) (dev c : String) (m tA tB : ℚ)
    (h : tA ≤ tB) (hfalse : alarm_recent store tA dev c m = false) :
    alarm_recent store tB dev c m = false := by
  simp only [alarm_recent, List.any_eq_false, Bool.and_eq_true, decide_eq_true_eq,
    not_and, ge_iff_le, not_le] at *
  intro a ha h1
  have := hfalse a ha h1
  linarith

theorem countCode_append_single (store : List AlarmRow) (r : AlarmRow) (dev c : String) :
    countCode (store ++ [r]) dev c =
      countCode store dev c + (if r.device_id = dev ∧ r.code = c then 1 else 0) := by
  by_cases h : r.device_id = dev ∧ r.code = c
  · obtain ⟨ha, hb⟩ := h
    simp [countCode, List.filter_append, ha, hb]
  · rcases not_and_or.mp h with h2 | h2 <;>
      simp [countCode, List.filter_append, h, h2]

/-- C7. Alarm deduplication cooldown: when no alarm of the same (device,
code) is within the 15-minute window, a candidate is persisted; firing
the same code again within the window is suppressed (the store does not
change), and firing once more after the window has expired persists a
second row — so two firings inside the window yield exactly one row, and
a later one a second. -/
theorem C7_dedup_cooldown (store : List AlarmRow) (dev code sev : String) (t1 t2 t3 : ℚ)
    (h1 : alarm_recent store t1 dev code COOLDOWN_MINUTES = false)
    (_h12 : t1 ≤ t2)
    (h2 : t2 - t1 < 15 * 60)
    (h3 : t3 - t1 > 15 * 60) :
    persistAlarms store dev t1 [⟨code, sev⟩] = store ++ [⟨dev, code, sev, t1⟩] ∧
    persistAlarms (store ++ [⟨dev, code, sev, t1⟩]) dev t2 [⟨code, sev⟩] =
      store ++ [⟨dev, code, sev, t1⟩] ∧
    persistAlarms (store ++ [⟨dev, code, sev, t1⟩]) dev t3 [⟨code, sev⟩] =
      store ++ [⟨dev, code, sev, t1⟩] ++ [⟨dev, code, sev, t3⟩] ∧
    countCode (store ++ [⟨dev, code, sev, t1⟩]) dev code = countCode store dev code + 1 ∧
    countCode (store ++ [⟨dev, code, sev, t1⟩] ++ [⟨dev, code, sev, t3⟩]) dev code =
      countCode store dev code + 2 := by
  have hrec2 : alarm_recent (store ++ [⟨dev, code, sev, t1⟩]) t2 dev code
      COOLDOWN_MINUTES = true := by
    rw [alarm_recent_append_single]
    have : (t1 : ℚ) ≥ t2 - COOLDOWN_MINUTES * 60 := by
      simp only [COOLDOWN_MINUTES]; linarith
    simp [this]
  have hrec3 : alarm_recent (store ++ [⟨dev, code, sev, t1⟩]) t3 dev code
      COOLDOWN_MINUTES = false := by
    rw [alarm_recent_append_single]
    have hm : alarm_recent store t3 dev code COOLDOWN_MINUTES = false :=
      alarm_recent_false_mono store dev code COOLDOWN_MINUTES t1 t3 (by linarith) h1
    have : ¬ ((t1 : ℚ) ≥ t3 - COOLDOWN_MINUTES * 60) := by
      simp only [COOLDOWN_MINUTES, ge_iff_le, not_le]; linarith
    simp [hm, this]
  refine ⟨by simp [persistAlarms, h1], by simp [persistAlarms, hrec2],
    by simp [persistAlarms, hrec3], ?_, ?_⟩
  · rw [countCode_append_single]
    simp
  · rw [countCode_append_single, countCode_append_single]
    simp

/-- Witness for C7: same code fired at t = 0, 60 and 1000 seconds. -/
theorem C7_dedup_cooldown_witness :
    persistAlarms [] "d" 0 [⟨"F_CT_HIGH", "warn"⟩] =
      [⟨"d", "F_CT_HIGH", "warn", 0⟩] ∧
    persistAlarms [⟨"d", "F_CT_HIGH", "warn", 0⟩] "d" 60 [⟨"F_CT_HIGH", "warn"⟩] =
      [⟨"d", "F_CT_HIGH", "warn", 0⟩] ∧
    persistAlarms [⟨"d", "F_CT_HIGH", "warn", 0⟩] "d" 1000 [⟨"F_CT_HIGH", "warn"⟩] =
      [⟨"d", "F_CT_HIGH", "warn", 0⟩, ⟨"d", "F_CT_HIGH", "warn", 1000⟩] := by
  have h := C7_dedup_cooldown [] "d" "F_CT_HIGH" "warn" 0 60 1000 rfl
    (by norm_num) (by norm_num) (by norm_num)
  exact ⟨h.1, by simpa using h.2.1, by simpa using h.2.2.1⟩

theorem alarm_recent_persistAlarms_ne (store : List AlarmRow) (dev dev2 : String)
    (now now2 : ℚ) (c : String) (m : ℚ) (alarms : List AlarmEvent)
    (h : ∀ a ∈ alarms, a.code ≠ c) :
    alarm_recent (persistAlarms store dev2 now2 alarms) now dev c m =
      alarm_recent store now dev c m := by
  induction alarms generalizing store with
  | nil => rfl
  | cons a as ih =>
      have step : persistAlarms store dev2 now2 (a :: as) =
          persistAlarms
            (if alarm_recent store now2 dev2 a.code COOLDOWN_MINUTES then store
             else store ++ [⟨dev2, a.code, a.severity, now2⟩]) dev2 now2 as := rfl
      rw [step]
      by_cases hr : alarm_recent store now2 dev2 a.code COOLDOWN_MINUTES
      · rw [if_pos hr]
        exact ih store (fun x hx => h x (List.mem_cons_of_mem _ hx))
      · rw [if_neg hr,
          ih _ (fun x hx => h x (List.mem_cons_of_mem _ hx)),
          alarm_recent_append_single]
        have hc : a.code ≠ c := h a (List.mem_cons_self a as)
        simp [hc]

/-- C10. Every recommendation of a diagnosis pass is persisted into the
same alarm store as an `Alarm` row whose code is `"REC_"` prefixed to the
recommendation code, with severity `"info"`, deduplicated against that
prefixed code with the same 15-minute cooldown — and, as long as no
engine alarm code collides with the prefixed code (none does), the
outcome is decided by the store as it was before the pass's alarms,
independently of whether the paired alarm was itself suppressed. -/
theorem C10_rec_persistence (store : List AlarmRow) (dev : String) (now : ℚ)
    (alarms : List AlarmEvent) (r : Recommendation)
    (hdisj : ∀ a ∈ alarms, a.code ≠ "REC_" ++ r.code) :
    (alarm_recent store now dev ("REC_" ++ r.code) COOLDOWN_MINUTES = false →
       run_diagnosis_persist store dev now alarms [r] =
         persistAlarms store dev now alarms ++
           [⟨dev, "REC_" ++ r.code, "info", now⟩]) ∧
    (alarm_recent store now dev ("REC_" ++ r.code) COOLDOWN_MINUTES = true →
       run_diagnosis_persist store dev now alarms [r] =
         persistAlarms store dev now alarms) := by
  have key : alarm_recent (persistAlarms store dev now alarms) now dev
      ("REC_" ++ r.code) COOLDOWN_MINUTES =
      alarm_recent store now dev ("REC_" ++ r.code) COOLDOWN_MINUTES :=
    alarm_recent_persistAlarms_ne store dev dev now now ("REC_" ++ r.code)
      COOLDOWN_MINUTES alarms hdisj
  constructor <;> intro h <;>
    simp [run_diagnosis_persist, persistRecs, key, h]

/-- Witness for C10: rule F's alarm and recommendation on an empty
store — the alarm row is followed by the `REC_F_REC` info row. -/
theorem C10_rec_persistence_witness :
    run_diagnosis_persist [] "d" 0 [⟨"F_CT_HIGH", "warn"⟩] [⟨"F_REC"⟩] =
      persistAlarms [] "d" 0 [⟨"F_CT_HIGH", "warn"⟩] ++
        [⟨"d", "REC_F_REC", "info", 0⟩] := by
  have h := C10_rec_persistence [] "d" 0 [⟨"F_CT_HIGH", "warn"⟩] ⟨"F_REC"⟩
    (by intro a ha; simp at ha; rw [ha]; decide)
  exact h.1 rfl

/-- C9 counterexample: the decoder drops the payload `{"value": 5}` on a
known field — the claim requires it to be accepted and forwarded as 5. -/
theorem C9_counterexample :
    tele_value (Payload.obj [("value", Payload.num 5)]) = none ∧
    on_message_tele ["conductivity_perm"] (Payload.obj [("value", Payload.num 5)])
      = none := by
  constructor <;> rfl

/-- C9 as amended: for a residual path whose first segment names a known
field, the decoder forwards `(field, x)` exactly when the payload is the
raw number `x`, a raw boolean (`true` as 1, `false` as 0 — Python treats
`bool` as numeric), or an object whose key `"v"` holds such a value; an
undecodable payload, an empty residual path or an unknown field name is
dropped. -/
theorem C9_tele_decoding (key : String) (rest : List String) (p : Payload)
    (hk : key ∈ TELE_KEYS) :
    (∀ x : ℚ, on_message_tele (key :: rest) p = some (key, x) ↔
       (p = Payload.num x ∨
        (p = Payload.boolean true ∧ x = 1) ∨
        (p = Payload.boolean false ∧ x = 0) ∨
        (∃ kvs, p = Payload.obj kvs ∧
           (kvs.lookup "v" = some (Payload.num x) ∨
            (kvs.lookup "v" = some (Payload.boolean true) ∧ x = 1) ∨
            (kvs.lookup "v" = some (Payload.boolean false) ∧ x = 0))))) ∧
    (tele_value p = none → on_message_tele (key :: rest) p = none) ∧
    on_message_tele [] p = none ∧
    (∀ k2, k2 ∉ TELE_KEYS → on_message_tele (k2 :: rest) p = none) := by
  refine ⟨?_, ?_, rfl, ?_⟩
  · intro x
    cases p with
    | num y => simp [on_message_tele, tele_value, hk, eq_comm]
    | boolean b => cases b <;> simp [on_message_tele, tele_value, hk, eq_comm]
    | pstr s => simp [on_message_tele, tele_value, hk]
    | obj kvs =>
        rcases hkv : kvs.lookup "v" with _ | pv
        · simp [on_message_tele, tele_value, hk, hkv]
        · cases pv with
          | num y => simp [on_message_tele, tele_value, hk, hkv, eq_comm]
          | boolean b => cases b <;> simp [on_message_tele, tele_value, hk, hkv, eq_comm]
          | pstr s => simp [on_message_tele, tele_value, hk, hkv]
          | obj kvs2 => simp [on_message_tele, tele_value, hk, hkv]
          | arr xs => simp [on_message_tele, tele_value, hk, hkv]
          | jnull => simp [on_message_tele, tele_value, hk, hkv]
    | arr xs => simp [on_message_tele, tele_value, hk]
    | jnull => simp [on_message_tele, tele_value, hk]
  · intro hv
    simp [on_message_tele, hk, hv]
  · intro k2 hk2
    simp [on_message_tele, hk2]

/-- Witness for C9: a raw number on `flow_perm` is forwarded, and the
`{"v": x}` shape is accepted. -/
theorem C9_tele_decoding_witness :
    on_message_tele ["flow_perm"] (Payload.num 3) = some ("flow_perm", 3) ∧
    on_message_tele ["flow_perm"] (Payload.obj [("v", Payload.num 3)])
      = some ("flow_perm", 3) := by
  have h := C9_tele_decoding "flow_perm" [] (Payload.num 3) (by decide)
  have h2 := C9_tele_decoding "flow_perm" [] (Payload.obj [("v", Payload.num 3)])
    (by decide)
  exact ⟨(h.1 3).mpr (Or.inl rfl),
    (h2.1 3).mpr (Or.inr (Or.inr (Or.inr ⟨_, rfl, Or.inl rfl⟩)))⟩

end Tenant
